import Mathlib

/-!
Verification of the Farmwire water-tank pump controller
(`src/ESP32/Farmwire.ino`).  The global variables of the sketch are
collected in a `State` structure; `controlPump`, `readSensors`,
`webSocketEvent` (as `applyCommand`), `loadSettings` and `saveSettings`
are translated directly from the C++ source.  Side effects on the relay
pin and the buzzer are recorded as an explicit event list.
-/

namespace Farmwire

/-- Side effects on the actuator and the buzzer: `relay b` is a
`digitalWrite(PIN_RELAY_PUMP, b)`, `beep t d` is a `beep(t, d)` call. -/
inductive Event where
  | relay (b : Bool)
  | beep (times duration : Int)
deriving Repr, DecidableEq

/-- The fields of `rtc.now()` that the sketch reads. -/
structure DateTime where
  day : Int
  hour : Int
  minute : Int
deriving Repr, DecidableEq

/-- The global variables of the sketch: the persisted configuration
(`TANK_HEIGHT_CM`, `PUMP_ON_LEVEL`, `PUMP_OFF_LEVEL`, `schedulesEnabled`,
`PRE_SCHEDULE_LIMIT`, `RECOVERY_TRIGGER`) together with the volatile
runtime state (`waterLevelPercent`, `pumpStatus`, `manualMode`,
`recoveryPending`, `lastScheduleDay`, `lastScheduleHour`). -/
structure State where
  tankHeightCm : Int
  pumpOnLevel : Int
  pumpOffLevel : Int
  schedulesEnabled : Bool
  preScheduleLimit : Int
  recoveryTrigger : Int
  waterLevelPercent : Int
  pumpStatus : Bool
  manualMode : Bool
  recoveryPending : Bool
  lastScheduleDay : Int
  lastScheduleHour : Int
deriving Repr, DecidableEq

/-- `const int SENSOR_GAP_CM = 5;` -/
def SENSOR_GAP_CM : Int := 5

/-- Arduino `constrain(amt, low, high)`. -/
def constrain (amt low high : Int) : Int :=
  if amt < low then low else if amt > high then high else amt

/-- Arduino `map(x, in_min, in_max, out_min, out_max)`: integer linear
interpolation with C `long` division (truncation toward zero). -/
def arduinoMap (x inMin inMax outMin outMax : Int) : Int :=
  Int.tdiv ((x - inMin) * (outMax - outMin)) (inMax - inMin) + outMin

/-- `readSensors()` restricted to the water level: a non-positive
`distanceCM` (an invalid ping) leaves `waterLevelPercent` unchanged,
otherwise the distance is mapped to a percentage and clamped to
`[0, 100]`.  (The DHT temperature read in the same function touches no
state the pump logic uses and is omitted.) -/
def readSensors (s : State) (distanceCM : Int) : State :=
  if distanceCM > 0 then
    { s with waterLevelPercent :=
        (constrain
          (arduinoMap distanceCM (s.tankHeightCm + SENSOR_GAP_CM) SENSOR_GAP_CM 0 100)
          0 100) }
  else s

/-- The "Reset tracker on new day" block at the top of `controlPump()`. -/
def dayRollover (now : DateTime) (s : State) : State :=
  if now.day ≠ s.lastScheduleDay then
    { s with lastScheduleDay := now.day, lastScheduleHour := -1 }
  else s

/-- One iteration of the `for (int slot : slots)` loop in
`controlPump()`: the in-window schedule start / skip, else the
missed-slot detection. -/
def slotCheck (now : DateTime) (slot : Int) (se : State × List Event) :
    State × List Event :=
  let s := se.1
  if now.hour = slot ∧ now.minute < 10 then
    if s.lastScheduleHour ≠ slot then
      if s.waterLevelPercent ≤ 85 then
        if s.pumpStatus = false then
          ({ s with pumpStatus := true, lastScheduleHour := slot },
            se.2 ++ [Event.relay true, Event.beep 1 500])
        else
          ({ s with lastScheduleHour := slot }, se.2)
      else
        ({ s with lastScheduleHour := slot }, se.2)
    else se
  else if now.hour > slot ∧ s.lastScheduleHour < slot then
    ({ s with recoveryPending := true }, se.2)
  else se

/-- The "Schedule & Recovery Detection" section of `controlPump()`:
the slot loop over `{8, 14, 20}`, guarded by `schedulesEnabled`. -/
def schedPhase (now : DateTime) (se : State × List Event) :
    State × List Event :=
  if se.1.schedulesEnabled then
    slotCheck now 20 (slotCheck now 14 (slotCheck now 8 se))
  else se

/-- The "Start Logic (Non-Scheduled)" section of `controlPump()`. -/
def startPhase (se : State × List Event) : State × List Event :=
  let s := se.1
  if s.pumpStatus = false then
    if s.waterLevelPercent ≤ s.pumpOnLevel then
      ({ s with pumpStatus := true },
        se.2 ++ [Event.relay true, Event.beep 1 500])
    else if s.recoveryPending = true ∧ s.waterLevelPercent ≤ s.recoveryTrigger then
      ({ s with pumpStatus := true },
        se.2 ++ [Event.relay true, Event.beep 3 200])
    else se
  else se

/-- The effective stop threshold of the "Stop Logic" section:
`PRE_SCHEDULE_LIMIT` during hours 7, 13 and 19, otherwise
`PUMP_OFF_LEVEL`. -/
def stopLimit (now : DateTime) (s : State) : Int :=
  if now.hour = 7 ∨ now.hour = 13 ∨ now.hour = 19 then s.preScheduleLimit
  else s.pumpOffLevel

/-- The "Stop Logic" section of `controlPump()`. -/
def stopPhase (now : DateTime) (se : State × List Event) :
    State × List Event :=
  let s := se.1
  if s.pumpStatus = true then
    if s.waterLevelPercent ≥ stopLimit now s then
      (if s.waterLevelPercent ≥ 90 then
        { s with pumpStatus := false, recoveryPending := false }
      else
        { s with pumpStatus := false },
        se.2 ++ [Event.relay false, Event.beep 2 200])
    else se
  else se

/-- `controlPump()`: the early `manualMode` return, then day rollover,
schedule/recovery detection, start logic and stop logic in the fixed
order of the source. -/
def controlPump (s : State) (now : DateTime) : State × List Event :=
  if s.manualMode = true then (s, [])
  else stopPhase now (startPhase (schedPhase now (dayRollover now s, [])))

/-- The optional fields of a `SETTINGS` command payload (`min`, `max`,
`sched`, `pre`, `rec`); `none` models an absent JSON key. -/
structure SettingsMsg where
  min? : Option Int
  max? : Option Int
  sched? : Option Bool
  pre? : Option Int
  rec? : Option Int
deriving Repr, DecidableEq

/-- The recognized values of the `command` field of an inbound message. -/
inductive Command where
  | pumpOn
  | pumpOff
  | auto
  | settings (msg : SettingsMsg)
deriving Repr, DecidableEq

/-- The NVS `Preferences` namespace `"farmwire"`: one optional entry per
key used by the sketch (`on`, `off`, `pre`, `rec`, `sched`, `h_cm`);
`none` models a key that was never written. -/
structure Store where
  onKey : Option Int
  offKey : Option Int
  preKey : Option Int
  recKey : Option Int
  schedKey : Option Bool
  hcmKey : Option Int
deriving Repr, DecidableEq

/-- `loadSettings()`: reads each key with its documented default. -/
def loadSettings (s : State) (store : Store) : State :=
  { s with
    pumpOnLevel := store.onKey.getD 20,
    pumpOffLevel := store.offKey.getD 90,
    preScheduleLimit := store.preKey.getD 65,
    recoveryTrigger := store.recKey.getD 70,
    schedulesEnabled := store.schedKey.getD true,
    tankHeightCm := store.hcmKey.getD 100 }

/-- `saveSettings()`: writes the keys `on`, `off`, `pre`, `rec` and
`sched`.  `TANK_HEIGHT_CM` (`h_cm`) is deliberately not written here;
the source saves it separately from the local web endpoint. -/
def saveSettings (s : State) (store : Store) : Store :=
  { store with
    onKey := some s.pumpOnLevel,
    offKey := some s.pumpOffLevel,
    preKey := some s.preScheduleLimit,
    recKey := some s.recoveryTrigger,
    schedKey := some s.schedulesEnabled }

/-- The `SETTINGS` branch of `webSocketEvent`: each field present in the
payload overwrites the corresponding global, absent fields keep their
prior values. -/
def applySettingsMsg (s : State) (m : SettingsMsg) : State :=
  { s with
    pumpOnLevel := m.min?.getD s.pumpOnLevel,
    pumpOffLevel := m.max?.getD s.pumpOffLevel,
    schedulesEnabled := m.sched?.getD s.schedulesEnabled,
    preScheduleLimit := m.pre?.getD s.preScheduleLimit,
    recoveryTrigger := m.rec?.getD s.recoveryTrigger }

/-- The command dispatch of `webSocketEvent` on a parsed message:
`PUMP_ON`, `PUMP_OFF`, `AUTO` and `SETTINGS` (which calls
`saveSettings` and confirms with `beep(3, 100)`). -/
def applyCommand (s : State) (store : Store) (c : Command) :
    State × Store × List Event :=
  match c with
  | Command.pumpOn =>
      ({ s with manualMode := true, pumpStatus := true }, store,
        [Event.relay true, Event.beep 1 100])
  | Command.pumpOff =>
      ({ s with manualMode := true, pumpStatus := false }, store,
        [Event.relay false, Event.beep 1 100])
  | Command.auto =>
      ({ s with manualMode := false }, store, [Event.beep 2 50])
  | Command.settings m =>
      let s' := applySettingsMsg s m
      (s', saveSettings s' store, [Event.beep 3 100])

/-- The initializers of the sketch's globals before `setup()` runs. -/
def bootGlobals : State :=
  { tankHeightCm := 100
    pumpOnLevel := 20
    pumpOffLevel := 90
    schedulesEnabled := true
    preScheduleLimit := 65
    recoveryTrigger := 70
    waterLevelPercent := 0
    pumpStatus := false
    manualMode := false
    recoveryPending := false
    lastScheduleDay := -1
    lastScheduleHour := -1 }

/-- Process start: globals are initialized, then `setup()` calls
`loadSettings()`. -/
def initialState (store : Store) : State :=
  loadSettings bootGlobals store

/-- One sampling tick of `loop()`: `readSensors()` followed by
`controlPump()`. -/
def tick (s : State) (d : Int) (now : DateTime) : State × List Event :=
  controlPump (readSensors s d) now

/-- A sequence of sampling ticks, collecting all emitted events. -/
def runTicks (s : State) : List (Int × DateTime) → State × List Event
  | [] => (s, [])
  | (d, now) :: rest =>
      let p := tick s d now
      let q := runTicks p.1 rest
      (q.1, p.2 ++ q.2)

/-- The configuration invariants stated by the specification's data
model: `pumpOnLevel < pumpOffLevel` and `pumpOnLevel ≤ recoveryTrigger`. -/
def configInvariant (s : State) : Prop :=
  s.pumpOnLevel < s.pumpOffLevel ∧ s.pumpOnLevel ≤ s.recoveryTrigger

instance (s : State) : Decidable (configInvariant s) := by
  unfold configInvariant; infer_instance

/-- Modelled from the spec: `linearMap(x, from=[a,b], to=[c,d])`, the
integer linear interpolation the specification's `readFill` uses.  Its
rounding is fixed by the spec's worked example (distance 55 ↦ 50). -/
def specLinearMap (x a b c d : Int) : Int :=
  Int.tdiv ((x - a) * (d - c)) (b - a) + c

/-- Modelled from the spec: `readFill(rawDistanceCm)` — an invalid or
non-positive reading returns the previous `lastFillPercent` unchanged,
otherwise `linearMap` from `[tankHeightCm+sensorGapCm, sensorGapCm]` to
`[0,100]`, clamped to `[0,100]`. -/
def readFill_spec (s : State) (rawDistanceCm : Int) : Int :=
  if rawDistanceCm ≤ 0 then s.waterLevelPercent
  else
    constrain
      (specLinearMap rawDistanceCm (s.tankHeightCm + SENSOR_GAP_CM)
        SENSOR_GAP_CM 0 100) 0 100

/-- `now` falls in the first ten minutes of one of the schedule slots. -/
def inWindow (now : DateTime) : Prop :=
  (now.hour = 8 ∨ now.hour = 14 ∨ now.hour = 20) ∧ now.minute < 10

instance (now : DateTime) : Decidable (inWindow now) := by
  unfold inWindow; infer_instance

/-- Some slot lies strictly before `now.hour` and after the last
resolved slot hour `l`. -/
def missedSlot (now : DateTime) (l : Int) : Prop :=
  (now.hour > 8 ∧ l < 8) ∨ (now.hour > 14 ∧ l < 14) ∨ (now.hour > 20 ∧ l < 20)

instance (now : DateTime) (l : Int) : Decidable (missedSlot now l) := by
  unfold missedSlot; infer_instance

/-- The value of `lastScheduleHour` after the day-rollover block. -/
def rolledLsh (s : State) (now : DateTime) : Int :=
  if now.day = s.lastScheduleDay then s.lastScheduleHour else -1

/-- The in-window schedule start fires during the call. -/
def schedStart (s : State) (now : DateTime) : Prop :=
  s.schedulesEnabled = true ∧ inWindow now ∧ rolledLsh s now ≠ now.hour ∧
    s.waterLevelPercent ≤ 85

/-- `recoveryPending` as observed by the start logic of the call. -/
def pendAfterSched (s : State) (now : DateTime) : Prop :=
  s.recoveryPending = true ∨
    (s.schedulesEnabled = true ∧ missedSlot now (rolledLsh s now))

/-- `pumpStatus` as observed by the stop logic of the call. -/
def pumpAfterStart (s : State) (now : DateTime) : Prop :=
  (s.pumpStatus = true ∨ schedStart s now) ∨
    s.waterLevelPercent ≤ s.pumpOnLevel ∨
    (pendAfterSched s now ∧ s.waterLevelPercent ≤ s.recoveryTrigger)

/-- Concrete store with no keys written (first boot). -/
def emptyStore : Store :=
  { onKey := none, offKey := none, preKey := none, recKey := none,
    schedKey := none, hcmKey := none }

/-- Concrete manual-mode state for the C1 witness. -/
def manualState : State := { bootGlobals with manualMode := true, pumpStatus := true }

/-- Concrete state refuting C2 as stated: valid configuration
(`pumpOnLevel = 20 < pumpOffLevel = 90 ≤ recoveryTrigger`-side invariants
hold) but `preScheduleLimit = 10`, level 15. -/
def preThrottleState : State :=
  { bootGlobals with
    preScheduleLimit := 10
    waterLevelPercent := 15
    lastScheduleDay := 1 }

/-- Concrete state for the C2 witness. -/
def lowLevelState : State :=
  { bootGlobals with waterLevelPercent := 10, lastScheduleDay := 1 }

/-- Concrete running-pump state for the C3 witness. -/
def runningState : State :=
  { bootGlobals with
    pumpStatus := true
    waterLevelPercent := 70
    lastScheduleDay := 1 }

/-- Concrete state refuting C4 as stated: pump running at level 95, slot 8
missed (`lastScheduleHour = -1`), hour 9.  The call sets `recoveryPending`
but its own stop logic clears it again (95 ≥ 90), so the post-state has
`recoveryPending = false`. -/
def clearedRecoveryState : State :=
  { bootGlobals with
    pumpStatus := true
    waterLevelPercent := 95
    lastScheduleDay := 5 }

/-- Concrete trace states for the C4 witness: detection at hour 9,
recovery start at level 60, clearing at level 92. -/
def missedSlotState : State :=
  { bootGlobals with waterLevelPercent := 60, lastScheduleDay := 5 }

/-- Second step of the C4 witness trace. -/
def pendingState : State :=
  { missedSlotState with recoveryPending := true }

/-- Third step of the C4 witness trace. -/
def toppedUpState : State :=
  { bootGlobals with
    pumpStatus := true
    recoveryPending := true
    waterLevelPercent := 92
    lastScheduleDay := 5 }

/-- Concrete state refuting C5 as stated: pump off, level 95,
`recoveryPending` set. -/
def staleRecoveryState : State :=
  { bootGlobals with
    recoveryPending := true
    waterLevelPercent := 95
    schedulesEnabled := false
    lastScheduleDay := 1 }

/-- Concrete state for the C5 witness. -/
def fullTankRunningState : State :=
  { bootGlobals with
    pumpStatus := true
    recoveryPending := true
    waterLevelPercent := 95
    lastScheduleDay := 1 }

/-- Concrete state with a non-default tank height for the C9
counterexample. -/
def shortTankState : State := { bootGlobals with tankHeightCm := 77 }

/-- Concrete store whose `h_cm` key holds the old value 100. -/
def storedHeightStore : Store := { emptyStore with hcmKey := some 100 }

theorem slotCheck_pres (now : DateTime) (slot : Int) (se : State × List Event) :
    (slotCheck now slot se).1.manualMode = se.1.manualMode ∧
    (slotCheck now slot se).1.waterLevelPercent = se.1.waterLevelPercent ∧
    (slotCheck now slot se).1.pumpOnLevel = se.1.pumpOnLevel ∧
    (slotCheck now slot se).1.pumpOffLevel = se.1.pumpOffLevel ∧
    (slotCheck now slot se).1.preScheduleLimit = se.1.preScheduleLimit ∧
    (slotCheck now slot se).1.recoveryTrigger = se.1.recoveryTrigger ∧
    (slotCheck now slot se).1.schedulesEnabled = se.1.schedulesEnabled ∧
    (slotCheck now slot se).1.tankHeightCm = se.1.tankHeightCm ∧
    (slotCheck now slot se).1.lastScheduleDay = se.1.lastScheduleDay := by
  obtain ⟨s, evs⟩ := se
  simp only [slotCheck]
  split_ifs <;> simp

theorem schedPhase_pres (now : DateTime) (se : State × List Event) :
    (schedPhase now se).1.manualMode = se.1.manualMode ∧
    (schedPhase now se).1.waterLevelPercent = se.1.waterLevelPercent ∧
    (schedPhase now se).1.pumpOnLevel = se.1.pumpOnLevel ∧
    (schedPhase now se).1.pumpOffLevel = se.1.pumpOffLevel ∧
    (schedPhase now se).1.preScheduleLimit = se.1.preScheduleLimit ∧
    (schedPhase now se).1.recoveryTrigger = se.1.recoveryTrigger ∧
    (schedPhase now se).1.schedulesEnabled = se.1.schedulesEnabled ∧
    (schedPhase now se).1.tankHeightCm = se.1.tankHeightCm ∧
    (schedPhase now se).1.lastScheduleDay = se.1.lastScheduleDay := by
  unfold schedPhase
  split_ifs with h
  · obtain ⟨a1, a2, a3, a4, a5, a6, a7, a8, a9⟩ := slotCheck_pres now 8 se
    obtain ⟨b1, b2, b3, b4, b5, b6, b7, b8, b9⟩ :=
      slotCheck_pres now 14 (slotCheck now 8 se)
    obtain ⟨c1, c2, c3, c4, c5, c6, c7, c8, c9⟩ :=
      slotCheck_pres now 20 (slotCheck now 14 (slotCheck now 8 se))
    exact ⟨c1.trans (b1.trans a1), c2.trans (b2.trans a2), c3.trans (b3.trans a3),
      c4.trans (b4.trans a4), c5.trans (b5.trans a5), c6.trans (b6.trans a6),
      c7.trans (b7.trans a7), c8.trans (b8.trans a8), c9.trans (b9.trans a9)⟩
  · simp

theorem slotCheck_pump_iff (now : DateTime) (slot : Int) (se : State × List Event) :
    ((slotCheck now slot se).1.pumpStatus = true ↔
      se.1.pumpStatus = true ∨
        (now.hour = slot ∧ now.minute < 10 ∧ se.1.lastScheduleHour ≠ slot ∧
          se.1.waterLevelPercent ≤ 85)) := by
  obtain ⟨s, evs⟩ := se
  simp only [slotCheck]
  split_ifs <;> simp_all

theorem slotCheck_pending_iff (now : DateTime) (slot : Int) (se : State × List Event) :
    ((slotCheck now slot se).1.recoveryPending = true ↔
      se.1.recoveryPending = true ∨
        (now.hour > slot ∧ se.1.lastScheduleHour < slot)) := by
  obtain ⟨s, evs⟩ := se
  simp only [slotCheck]
  split_ifs <;> simp_all <;> omega

theorem slotCheck_lsh (now : DateTime) (slot : Int) (se : State × List Event) :
    (slotCheck now slot se).1.lastScheduleHour =
      if now.hour = slot ∧ now.minute < 10 then slot
      else se.1.lastScheduleHour := by
  obtain ⟨s, evs⟩ := se
  simp only [slotCheck]
  split_ifs <;> simp_all

theorem schedPhase_pump_iff (now : DateTime) (se : State × List Event) :
    ((schedPhase now se).1.pumpStatus = true ↔
      se.1.pumpStatus = true ∨
        (se.1.schedulesEnabled = true ∧ inWindow now ∧
          se.1.lastScheduleHour ≠ now.hour ∧ se.1.waterLevelPercent ≤ 85)) := by
  unfold schedPhase
  split_ifs with hs
  · have e8 := slotCheck_pump_iff now 8 se
    have l8 := slotCheck_lsh now 8 se
    have f8 := (slotCheck_pres now 8 se).2.1
    have e14 := slotCheck_pump_iff now 14 (slotCheck now 8 se)
    have l14 := slotCheck_lsh now 14 (slotCheck now 8 se)
    have f14 := (slotCheck_pres now 14 (slotCheck now 8 se)).2.1
    have e20 := slotCheck_pump_iff now 20 (slotCheck now 14 (slotCheck now 8 se))
    rw [e20, e14, e8, l14, l8, f14, f8]
    simp only [inWindow, hs, true_and]
    by_cases hp : se.1.pumpStatus = true <;> split_ifs <;> simp_all <;> omega
  · simp only [inWindow]
    have : se.1.schedulesEnabled ≠ true := hs
    tauto

theorem schedPhase_pending_iff (now : DateTime) (se : State × List Event) :
    ((schedPhase now se).1.recoveryPending = true ↔
      se.1.recoveryPending = true ∨
        (se.1.schedulesEnabled = true ∧ missedSlot now se.1.lastScheduleHour)) := by
  unfold schedPhase
  split_ifs with hs
  · have e8 := slotCheck_pending_iff now 8 se
    have l8 := slotCheck_lsh now 8 se
    have e14 := slotCheck_pending_iff now 14 (slotCheck now 8 se)
    have l14 := slotCheck_lsh now 14 (slotCheck now 8 se)
    have e20 := slotCheck_pending_iff now 20 (slotCheck now 14 (slotCheck now 8 se))
    rw [e20, e14, e8, l14, l8]
    simp only [missedSlot, hs, true_and]
    by_cases hp : se.1.recoveryPending = true <;> split_ifs <;> simp_all <;> omega
  · simp only [missedSlot]
    have : se.1.schedulesEnabled ≠ true := hs
    tauto

theorem schedPhase_lsh (now : DateTime) (se : State × List Event) :
    (schedPhase now se).1.lastScheduleHour =
      if se.1.schedulesEnabled = true ∧ inWindow now then now.hour
      else se.1.lastScheduleHour := by
  by_cases hs : se.1.schedulesEnabled = true
  · unfold schedPhase
    rw [if_pos hs]
    have l8 := slotCheck_lsh now 8 se
    have l14 := slotCheck_lsh now 14 (slotCheck now 8 se)
    have l20 := slotCheck_lsh now 20 (slotCheck now 14 (slotCheck now 8 se))
    rw [l20, l14, l8]
    simp only [inWindow, hs, true_and]
    split_ifs <;> simp_all <;> omega
  · unfold schedPhase
    rw [if_neg hs, if_neg (fun hq => hs hq.1)]

theorem startPhase_pres (se : State × List Event) :
    (startPhase se).1.manualMode = se.1.manualMode ∧
    (startPhase se).1.waterLevelPercent = se.1.waterLevelPercent ∧
    (startPhase se).1.pumpOnLevel = se.1.pumpOnLevel ∧
    (startPhase se).1.pumpOffLevel = se.1.pumpOffLevel ∧
    (startPhase se).1.preScheduleLimit = se.1.preScheduleLimit ∧
    (startPhase se).1.recoveryTrigger = se.1.recoveryTrigger ∧
    (startPhase se).1.schedulesEnabled = se.1.schedulesEnabled ∧
    (startPhase se).1.tankHeightCm = se.1.tankHeightCm ∧
    (startPhase se).1.lastScheduleDay = se.1.lastScheduleDay ∧
    (startPhase se).1.lastScheduleHour = se.1.lastScheduleHour ∧
    (startPhase se).1.recoveryPending = se.1.recoveryPending := by
  obtain ⟨s, evs⟩ := se
  simp only [startPhase]
  split_ifs <;> simp

theorem startPhase_pump_iff (se : State × List Event) :
    ((startPhase se).1.pumpStatus = true ↔
      se.1.pumpStatus = true ∨ se.1.waterLevelPercent ≤ se.1.pumpOnLevel ∨
        (se.1.recoveryPending = true ∧
          se.1.waterLevelPercent ≤ se.1.recoveryTrigger)) := by
  obtain ⟨s, evs⟩ := se
  simp only [startPhase]
  split_ifs <;> simp_all

theorem stopPhase_pres (now : DateTime) (se : State × List Event) :
    (stopPhase now se).1.manualMode = se.1.manualMode ∧
    (stopPhase now se).1.waterLevelPercent = se.1.waterLevelPercent ∧
    (stopPhase now se).1.pumpOnLevel = se.1.pumpOnLevel ∧
    (stopPhase now se).1.pumpOffLevel = se.1.pumpOffLevel ∧
    (stopPhase now se).1.preScheduleLimit = se.1.preScheduleLimit ∧
    (stopPhase now se).1.recoveryTrigger = se.1.recoveryTrigger ∧
    (stopPhase now se).1.schedulesEnabled = se.1.schedulesEnabled ∧
    (stopPhase now se).1.tankHeightCm = se.1.tankHeightCm ∧
    (stopPhase now se).1.lastScheduleDay = se.1.lastScheduleDay ∧
    (stopPhase now se).1.lastScheduleHour = se.1.lastScheduleHour := by
  obtain ⟨s, evs⟩ := se
  simp only [stopPhase]
  split_ifs <;> simp

theorem stopPhase_pump_iff (now : DateTime) (se : State × List Event) :
    ((stopPhase now se).1.pumpStatus = true ↔
      se.1.pumpStatus = true ∧
        se.1.waterLevelPercent < stopLimit now se.1) := by
  obtain ⟨s, evs⟩ := se
  simp only [stopPhase]
  split_ifs <;> simp_all <;> omega

theorem stopPhase_pending_iff (now : DateTime) (se : State × List Event) :
    ((stopPhase now se).1.recoveryPending = true ↔
      se.1.recoveryPending = true ∧
        ¬(se.1.pumpStatus = true ∧
          se.1.waterLevelPercent ≥ stopLimit now se.1 ∧
          se.1.waterLevelPercent ≥ 90)) := by
  obtain ⟨s, evs⟩ := se
  simp only [stopPhase]
  split_ifs <;> simp_all <;> omega

theorem dayRollover_fields (now : DateTime) (s : State) :
    (dayRollover now s).manualMode = s.manualMode ∧
    (dayRollover now s).waterLevelPercent = s.waterLevelPercent ∧
    (dayRollover now s).pumpOnLevel = s.pumpOnLevel ∧
    (dayRollover now s).pumpOffLevel = s.pumpOffLevel ∧
    (dayRollover now s).preScheduleLimit = s.preScheduleLimit ∧
    (dayRollover now s).recoveryTrigger = s.recoveryTrigger ∧
    (dayRollover now s).schedulesEnabled = s.schedulesEnabled ∧
    (dayRollover now s).tankHeightCm = s.tankHeightCm ∧
    (dayRollover now s).pumpStatus = s.pumpStatus ∧
    (dayRollover now s).recoveryPending = s.recoveryPending ∧
    (dayRollover now s).lastScheduleDay = now.day ∧
    (dayRollover now s).lastScheduleHour =
      (if now.day = s.lastScheduleDay then s.lastScheduleHour else -1) := by
  unfold dayRollover
  split_ifs <;> simp_all

theorem slotCheck_pumpTrue (now : DateTime) (slot : Int) (se : State × List Event)
    (h : se.1.pumpStatus = true) :
    (slotCheck now slot se).1.pumpStatus = true ∧ (slotCheck now slot se).2 = se.2 := by
  obtain ⟨s, evs⟩ := se
  simp only [slotCheck]
  split_ifs <;> simp_all

theorem slotCheck_cases (now : DateTime) (slot : Int) (se : State × List Event)
    (h : se.1.pumpStatus = false) :
    ((slotCheck now slot se).1.pumpStatus = false ∧ (slotCheck now slot se).2 = se.2) ∨
    ((slotCheck now slot se).1.pumpStatus = true ∧
      (slotCheck now slot se).2 = se.2 ++ [Event.relay true, Event.beep 1 500]) := by
  obtain ⟨s, evs⟩ := se
  simp only [slotCheck]
  split_ifs <;> simp_all

theorem schedPhase_pumpTrue (now : DateTime) (se : State × List Event)
    (h : se.1.pumpStatus = true) :
    (schedPhase now se).1.pumpStatus = true ∧ (schedPhase now se).2 = se.2 := by
  unfold schedPhase
  split_ifs with hs
  · obtain ⟨h8, e8⟩ := slotCheck_pumpTrue now 8 se h
    obtain ⟨h14, e14⟩ := slotCheck_pumpTrue now 14 (slotCheck now 8 se) h8
    obtain ⟨h20, e20⟩ := slotCheck_pumpTrue now 20 (slotCheck now 14 (slotCheck now 8 se)) h14
    exact ⟨h20, e20.trans (e14.trans e8)⟩
  · exact ⟨h, rfl⟩

theorem schedPhase_cases (now : DateTime) (se : State × List Event)
    (h : se.1.pumpStatus = false) :
    ((schedPhase now se).1.pumpStatus = false ∧ (schedPhase now se).2 = se.2) ∨
    ((schedPhase now se).1.pumpStatus = true ∧
      (schedPhase now se).2 = se.2 ++ [Event.relay true, Event.beep 1 500]) := by
  unfold schedPhase
  split_ifs with hs
  · rcases slotCheck_cases now 8 se h with ⟨h8, e8⟩ | ⟨h8, e8⟩
    · rcases slotCheck_cases now 14 (slotCheck now 8 se) h8 with ⟨h14, e14⟩ | ⟨h14, e14⟩
      · rcases slotCheck_cases now 20 (slotCheck now 14 (slotCheck now 8 se)) h14 with
          ⟨h20, e20⟩ | ⟨h20, e20⟩
        · exact Or.inl ⟨h20, e20.trans (e14.trans e8)⟩
        · refine Or.inr ⟨h20, ?_⟩
          rw [e20, e14, e8]
      · obtain ⟨h20, e20⟩ :=
          slotCheck_pumpTrue now 20 (slotCheck now 14 (slotCheck now 8 se)) h14
        refine Or.inr ⟨h20, ?_⟩
        rw [e20, e14, e8]
    · obtain ⟨h14, e14⟩ := slotCheck_pumpTrue now 14 (slotCheck now 8 se) h8
      obtain ⟨h20, e20⟩ :=
        slotCheck_pumpTrue now 20 (slotCheck now 14 (slotCheck now 8 se)) h14
      refine Or.inr ⟨h20, ?_⟩
      rw [e20, e14, e8]
  · exact Or.inl ⟨h, rfl⟩

theorem startPhase_id_of_pumpTrue (se : State × List Event)
    (h : se.1.pumpStatus = true) : startPhase se = se := by
  obtain ⟨s, evs⟩ := se
  simp only [startPhase]
  rw [if_neg (by simp_all)]

theorem startPhase_lowStart (se : State × List Event)
    (h : se.1.pumpStatus = false) (h2 : se.1.waterLevelPercent ≤ se.1.pumpOnLevel) :
    (startPhase se).1.pumpStatus = true ∧
      (startPhase se).2 = se.2 ++ [Event.relay true, Event.beep 1 500] := by
  obtain ⟨s, evs⟩ := se
  simp only [startPhase]
  split_ifs <;> simp_all

theorem startPhase_recoveryStart (se : State × List Event)
    (h : se.1.pumpStatus = false) (h2 : ¬se.1.waterLevelPercent ≤ se.1.pumpOnLevel)
    (h3 : se.1.recoveryPending = true)
    (h4 : se.1.waterLevelPercent ≤ se.1.recoveryTrigger) :
    (startPhase se).1.pumpStatus = true ∧
      (startPhase se).2 = se.2 ++ [Event.relay true, Event.beep 3 200] := by
  obtain ⟨s, evs⟩ := se
  simp only [startPhase]
  split_ifs <;> simp_all

theorem startPhase_id_of_noStart (se : State × List Event)
    (h2 : ¬se.1.waterLevelPercent ≤ se.1.pumpOnLevel)
    (h3 : ¬(se.1.recoveryPending = true ∧
      se.1.waterLevelPercent ≤ se.1.recoveryTrigger)) : startPhase se = se := by
  obtain ⟨s, evs⟩ := se
  simp only [startPhase]
  split_ifs <;> simp_all

theorem stopPhase_id_of_lt (now : DateTime) (se : State × List Event)
    (h : se.1.waterLevelPercent < stopLimit now se.1) : stopPhase now se = se := by
  obtain ⟨s, evs⟩ := se
  simp only [stopPhase]
  split_ifs <;> simp_all <;> omega

theorem stopPhase_id_of_pumpFalse (now : DateTime) (se : State × List Event)
    (h : se.1.pumpStatus = false) : stopPhase now se = se := by
  obtain ⟨s, evs⟩ := se
  simp only [stopPhase]
  rw [if_neg (by simp_all)]

theorem stopPhase_stop (now : DateTime) (se : State × List Event)
    (h : se.1.pumpStatus = true)
    (h2 : se.1.waterLevelPercent ≥ stopLimit now se.1) :
    (stopPhase now se).1.pumpStatus = false ∧
      (stopPhase now se).2 = se.2 ++ [Event.relay false, Event.beep 2 200] := by
  obtain ⟨s, evs⟩ := se
  simp only [stopPhase]
  split_ifs <;> simp_all

theorem controlPump_manual (s : State) (now : DateTime)
    (h : s.manualMode = true) : controlPump s now = (s, []) := by
  simp [controlPump, h]

theorem readSensors_pres (s : State) (d : Int) :
    (readSensors s d).pumpStatus = s.pumpStatus ∧
    (readSensors s d).manualMode = s.manualMode ∧
    (readSensors s d).recoveryPending = s.recoveryPending := by
  unfold readSensors
  split_ifs <;> simp

theorem stopLimit_congr (now : DateTime) (a b : State)
    (h1 : a.preScheduleLimit = b.preScheduleLimit)
    (h2 : a.pumpOffLevel = b.pumpOffLevel) :
    stopLimit now a = stopLimit now b := by
  unfold stopLimit
  split_ifs <;> simp_all

theorem controlPump_pres (s : State) (now : DateTime) :
    (controlPump s now).1.manualMode = s.manualMode ∧
    (controlPump s now).1.waterLevelPercent = s.waterLevelPercent ∧
    (controlPump s now).1.pumpOnLevel = s.pumpOnLevel ∧
    (controlPump s now).1.pumpOffLevel = s.pumpOffLevel ∧
    (controlPump s now).1.preScheduleLimit = s.preScheduleLimit ∧
    (controlPump s now).1.recoveryTrigger = s.recoveryTrigger ∧
    (controlPump s now).1.schedulesEnabled = s.schedulesEnabled ∧
    (controlPump s now).1.tankHeightCm = s.tankHeightCm := by
  by_cases hm : s.manualMode = true
  · rw [controlPump_manual s now hm]
    exact ⟨rfl, rfl, rfl, rfl, rfl, rfl, rfl, rfl⟩
  · unfold controlPump
    rw [if_neg hm]
    obtain ⟨d1, d2, d3, d4, d5, d6, d7, d8, d9, d10, d11, d12⟩ :=
      dayRollover_fields now s
    obtain ⟨p1, p2, p3, p4, p5, p6, p7, p8, p9⟩ :=
      schedPhase_pres now (dayRollover now s, [])
    obtain ⟨q1, q2, q3, q4, q5, q6, q7, q8, q9, q10, q11⟩ :=
      startPhase_pres (schedPhase now (dayRollover now s, []))
    obtain ⟨r1, r2, r3, r4, r5, r6, r7, r8, r9, r10⟩ :=
      stopPhase_pres now (startPhase (schedPhase now (dayRollover now s, [])))
    exact ⟨r1.trans (q1.trans (p1.trans d1)), r2.trans (q2.trans (p2.trans d2)),
      r3.trans (q3.trans (p3.trans d3)), r4.trans (q4.trans (p4.trans d4)),
      r5.trans (q5.trans (p5.trans d5)), r6.trans (q6.trans (p6.trans d6)),
      r7.trans (q7.trans (p7.trans d7)), r8.trans (q8.trans (p8.trans d8))⟩

theorem controlPump_lsd (s : State) (now : DateTime) (hm : ¬s.manualMode = true) :
    (controlPump s now).1.lastScheduleDay = now.day := by
  unfold controlPump
  rw [if_neg hm]
  obtain ⟨d1, d2, d3, d4, d5, d6, d7, d8, d9, d10, d11, d12⟩ :=
    dayRollover_fields now s
  obtain ⟨p1, p2, p3, p4, p5, p6, p7, p8, p9⟩ :=
    schedPhase_pres now (dayRollover now s, [])
  obtain ⟨q1, q2, q3, q4, q5, q6, q7, q8, q9, q10, q11⟩ :=
    startPhase_pres (schedPhase now (dayRollover now s, []))
  obtain ⟨r1, r2, r3, r4, r5, r6, r7, r8, r9, r10⟩ :=
    stopPhase_pres now (startPhase (schedPhase now (dayRollover now s, [])))
  exact r9.trans (q9.trans (p9.trans d11))

theorem controlPump_lsh (s : State) (now : DateTime) (hm : ¬s.manualMode = true) :
    (controlPump s now).1.lastScheduleHour =
      if s.schedulesEnabled = true ∧ inWindow now then now.hour
      else rolledLsh s now := by
  unfold controlPump
  rw [if_neg hm]
  obtain ⟨d1, d2, d3, d4, d5, d6, d7, d8, d9, d10, d11, d12⟩ :=
    dayRollover_fields now s
  obtain ⟨q1, q2, q3, q4, q5, q6, q7, q8, q9, q10, q11⟩ :=
    startPhase_pres (schedPhase now (dayRollover now s, []))
  obtain ⟨r1, r2, r3, r4, r5, r6, r7, r8, r9, r10⟩ :=
    stopPhase_pres now (startPhase (schedPhase now (dayRollover now s, [])))
  rw [r10, q10, schedPhase_lsh now (dayRollover now s, [])]
  show (if (dayRollover now s).schedulesEnabled = true ∧ inWindow now then now.hour
    else (dayRollover now s).lastScheduleHour) = _
  rw [d7, d12]
  rfl

theorem controlPump_pump_iff (s : State) (now : DateTime) (hm : ¬s.manualMode = true) :
    ((controlPump s now).1.pumpStatus = true ↔
      pumpAfterStart s now ∧ s.waterLevelPercent < stopLimit now s) := by
  unfold controlPump
  rw [if_neg hm]
  obtain ⟨d1, d2, d3, d4, d5, d6, d7, d8, d9, d10, d11, d12⟩ :=
    dayRollover_fields now s
  obtain ⟨p1, p2, p3, p4, p5, p6, p7, p8, p9⟩ :=
    schedPhase_pres now (dayRollover now s, [])
  obtain ⟨q1, q2, q3, q4, q5, q6, q7, q8, q9, q10, q11⟩ :=
    startPhase_pres (schedPhase now (dayRollover now s, []))
  have hlim : stopLimit now (startPhase (schedPhase now (dayRollover now s, []))).1 =
      stopLimit now s := by
    apply stopLimit_congr
    · exact q5.trans (p5.trans d5)
    · exact q4.trans (p4.trans d4)
  rw [stopPhase_pump_iff now (startPhase (schedPhase now (dayRollover now s, []))),
    hlim, q2, p2, d2,
    startPhase_pump_iff (schedPhase now (dayRollover now s, [])),
    schedPhase_pump_iff now (dayRollover now s, []),
    schedPhase_pending_iff now (dayRollover now s, []),
    p2, p3, p6, d2, d3, d6, d7, d9, d10, d12]
  show ((s.pumpStatus = true ∨
      (s.schedulesEnabled = true ∧ inWindow now ∧
        rolledLsh s now ≠ now.hour ∧ s.waterLevelPercent ≤ 85)) ∨
      s.waterLevelPercent ≤ s.pumpOnLevel ∨
      ((s.recoveryPending = true ∨
        (s.schedulesEnabled = true ∧ missedSlot now (rolledLsh s now))) ∧
        s.waterLevelPercent ≤ s.recoveryTrigger)) ∧
      s.waterLevelPercent < stopLimit now s ↔ _
  unfold pumpAfterStart schedStart pendAfterSched
  exact Iff.rfl

set_option maxHeartbeats 2000000 in
theorem controlPump_pending_iff (s : State) (now : DateTime) (hm : ¬s.manualMode = true) :
    ((controlPump s now).1.recoveryPending = true ↔
      pendAfterSched s now ∧
        ¬(pumpAfterStart s now ∧ s.waterLevelPercent ≥ stopLimit now s ∧
          s.waterLevelPercent ≥ 90)) := by
  unfold controlPump
  rw [if_neg hm]
  obtain ⟨d1, d2, d3, d4, d5, d6, d7, d8, d9, d10, d11, d12⟩ :=
    dayRollover_fields now s
  obtain ⟨p1, p2, p3, p4, p5, p6, p7, p8, p9⟩ :=
    schedPhase_pres now (dayRollover now s, [])
  obtain ⟨q1, q2, q3, q4, q5, q6, q7, q8, q9, q10, q11⟩ :=
    startPhase_pres (schedPhase now (dayRollover now s, []))
  have hlim : stopLimit now (startPhase (schedPhase now (dayRollover now s, []))).1 =
      stopLimit now s := by
    apply stopLimit_congr
    · exact q5.trans (p5.trans d5)
    · exact q4.trans (p4.trans d4)
  rw [stopPhase_pending_iff now (startPhase (schedPhase now (dayRollover now s, []))),
    hlim, q2, q11, p2, d2,
    startPhase_pump_iff (schedPhase now (dayRollover now s, [])),
    schedPhase_pump_iff now (dayRollover now s, []),
    schedPhase_pending_iff now (dayRollover now s, []),
    p2, p3, p6, d2, d3, d6, d7, d9, d10, d12]
  show (s.recoveryPending = true ∨
      (s.schedulesEnabled = true ∧ missedSlot now (rolledLsh s now))) ∧
      ¬(((s.pumpStatus = true ∨
        (s.schedulesEnabled = true ∧ inWindow now ∧
          rolledLsh s now ≠ now.hour ∧ s.waterLevelPercent ≤ 85)) ∨
        s.waterLevelPercent ≤ s.pumpOnLevel ∨
        ((s.recoveryPending = true ∨
          (s.schedulesEnabled = true ∧ missedSlot now (rolledLsh s now))) ∧
          s.waterLevelPercent ≤ s.recoveryTrigger)) ∧
        s.waterLevelPercent ≥ stopLimit now s ∧ s.waterLevelPercent ≥ 90) ↔ _
  unfold pendAfterSched pumpAfterStart schedStart
  exact Iff.rfl

theorem bool_eq_of_iff {a b : Bool} (h : a = true ↔ b = true) : a = b := by
  cases a <;> cases b <;> simp_all

theorem controlPump_idem_aux (s : State) (now : DateTime)
    (hm : ¬s.manualMode = true) :
    (controlPump (controlPump s now).1 now).1.pumpStatus =
      (controlPump s now).1.pumpStatus := by
  obtain ⟨c1, c2, c3, c4, c5, c6, c7, c8⟩ := controlPump_pres s now
  have hm1 : ¬(controlPump s now).1.manualMode = true := by rw [c1]; exact hm
  have hlsd := controlPump_lsd s now hm
  have hlsh := controlPump_lsh s now hm
  have hpump1 := controlPump_pump_iff s now hm
  have hpend1 := controlPump_pending_iff s now hm
  have hpump2 := controlPump_pump_iff (controlPump s now).1 now hm1
  have hlimeq : stopLimit now (controlPump s now).1 = stopLimit now s :=
    stopLimit_congr now _ _ c5 c4
  have hroll1 : rolledLsh (controlPump s now).1 now =
      (controlPump s now).1.lastScheduleHour := by
    unfold rolledLsh
    rw [hlsd, if_pos rfl]
  have hss : ¬schedStart (controlPump s now).1 now := by
    rintro ⟨hsch, hwin, hne, _⟩
    rw [hroll1, hlsh] at hne
    rw [c7] at hsch
    rw [if_pos ⟨hsch, hwin⟩] at hne
    exact hne rfl
  by_cases hlt : s.waterLevelPercent < stopLimit now s
  · have key : pumpAfterStart (controlPump s now).1 now ↔ pumpAfterStart s now := by
      constructor
      · rintro ((hp | hs') | hon | ⟨hpend, hrec⟩)
        · exact (hpump1.mp hp).1
        · exact absurd hs' hss
        · rw [c2, c3] at hon
          exact Or.inr (Or.inl hon)
        · rw [c2, c6] at hrec
          rcases hpend with hpd | ⟨hsch1, hmiss⟩
          · exact Or.inr (Or.inr ⟨(hpend1.mp hpd).1, hrec⟩)
          · rw [c7] at hsch1
            rw [hroll1, hlsh] at hmiss
            by_cases hw : s.schedulesEnabled = true ∧ inWindow now
            · rw [if_pos hw] at hmiss
              exfalso
              obtain ⟨hh, -⟩ := hw.2
              unfold missedSlot at hmiss
              rcases hh with h8 | h14 | h20 <;> omega
            · rw [if_neg hw] at hmiss
              exact Or.inr (Or.inr ⟨Or.inr ⟨hsch1, hmiss⟩, hrec⟩)
      · intro hpA
        exact Or.inl (Or.inl (hpump1.mpr ⟨hpA, hlt⟩))
    have e1 : (controlPump s now).1.pumpStatus = true ↔ pumpAfterStart s now := by
      rw [hpump1]
      exact ⟨fun h => h.1, fun h => ⟨h, hlt⟩⟩
    have e2 : (controlPump (controlPump s now).1 now).1.pumpStatus = true ↔
        pumpAfterStart s now := by
      rw [hpump2, c2, hlimeq, key]
      exact ⟨fun h => h.1, fun h => ⟨h, hlt⟩⟩
    exact bool_eq_of_iff (e2.trans e1.symm)
  · have h1 : ¬(controlPump s now).1.pumpStatus = true := fun h => hlt (hpump1.mp h).2
    have h2 : ¬(controlPump (controlPump s now).1 now).1.pumpStatus = true := by
      intro h
      have hb := (hpump2.mp h).2
      rw [c2, hlimeq] at hb
      exact hlt hb
    exact bool_eq_of_iff ⟨fun h => absurd h h2, fun h => absurd h h1⟩

theorem readSensors_id_of_nonpos (s : State) (d : Int) (h : d ≤ 0) :
    readSensors s d = s := by
  unfold readSensors
  rw [if_neg (by omega)]

theorem runTicks_manual (s : State) (h : s.manualMode = true)
    (ts : List (Int × DateTime)) :
    (runTicks s ts).1.pumpStatus = s.pumpStatus ∧
    (runTicks s ts).2 = [] ∧ (runTicks s ts).1.manualMode = true := by
  induction ts generalizing s with
  | nil => exact ⟨rfl, rfl, h⟩
  | cons t rest ih =>
      obtain ⟨d, now⟩ := t
      obtain ⟨hp, hman, -⟩ := readSensors_pres s d
      have hm2 : (readSensors s d).manualMode = true := hman.trans h
      have ht : tick s d now = (readSensors s d, []) := controlPump_manual _ now hm2
      obtain ⟨ih1, ih2, ih3⟩ := ih (readSensors s d) hm2
      simp only [runTicks, ht]
      exact ⟨ih1.trans hp, by simp [ih2], ih3⟩

/-- The stop logic (with the pump running and a level at or above both the
effective threshold and 90) always clears `recoveryPending`. -/
theorem stop_clears_pending (s : State) (now : DateTime)
    (hm : s.manualMode = false) (hp : s.pumpStatus = true)
    (hf : 90 ≤ s.waterLevelPercent)
    (hl : stopLimit now s ≤ s.waterLevelPercent) :
    (controlPump s now).1.recoveryPending = false := by
  have hm' : ¬s.manualMode = true := by simp [hm]
  have h := controlPump_pending_iff s now hm'
  have hpa : pumpAfterStart s now := Or.inl (Or.inl hp)
  have hne : ¬(controlPump s now).1.recoveryPending = true := fun hx =>
    (h.mp hx).2 ⟨hpa, hl, hf⟩
  simpa using hne

/-- C1: manual override suppresses automatic transitions — in every state
with `manualMode = true` (as set by `applyCommand` of `PUMP_ON`/`PUMP_OFF`),
any sequence of sampling ticks (`readSensors` + `controlPump`) leaves
`pumpStatus` unchanged and emits no feedback and no actuator change, and
`manualMode` stays `true` (so this persists tick after tick) until an
`AUTO` command sets `manualMode` to `false`. -/
theorem manual_override_suppresses (s : State) (hm : s.manualMode = true)
    (ts : List (Int × DateTime)) (store : Store) :
    (runTicks s ts).1.pumpStatus = s.pumpStatus ∧
    (runTicks s ts).2 = [] ∧
    (runTicks s ts).1.manualMode = true ∧
    (applyCommand s store Command.pumpOn).1.manualMode = true ∧
    (applyCommand s store Command.pumpOff).1.manualMode = true ∧
    (applyCommand s store Command.auto).1.manualMode = false := by
  obtain ⟨h1, h2, h3⟩ := runTicks_manual s hm ts
  exact ⟨h1, h2, h3, rfl, rfl, rfl⟩

/-- C1 witness: the theorem applied at a concrete manual-mode state and a
concrete two-tick run. -/
theorem manual_override_suppresses_witness :
    manualState.manualMode = true ∧
    ((runTicks manualState [(55, ⟨1, 8, 5⟩), (3, ⟨1, 9, 0⟩)]).1.pumpStatus =
        manualState.pumpStatus ∧
      (runTicks manualState [(55, ⟨1, 8, 5⟩), (3, ⟨1, 9, 0⟩)]).2 = [] ∧
      (runTicks manualState [(55, ⟨1, 8, 5⟩), (3, ⟨1, 9, 0⟩)]).1.manualMode = true ∧
      (applyCommand manualState emptyStore Command.pumpOn).1.manualMode = true ∧
      (applyCommand manualState emptyStore Command.pumpOff).1.manualMode = true ∧
      (applyCommand manualState emptyStore Command.auto).1.manualMode = false) :=
  ⟨rfl, manual_override_suppresses manualState rfl
    [(55, ⟨1, 8, 5⟩), (3, ⟨1, 9, 0⟩)] emptyStore⟩

/-- C2 (amended): with `manualMode = false`, the pump off and
`fillPercent ≤ pumpOnLevel`, `controlPump` starts the pump — actuator ON
and exactly one `beep(1,500)`, never the recovery beep `beep(3,200)` (the
low-level start takes priority) — and the pump is still on at the end of
the call provided `fillPercent` is below the effective stop threshold
(`preScheduleLimit` at hours 7/13/19, else `pumpOffLevel`); without that
proviso the same call's stop logic can switch the pump off again. -/
theorem normal_low_level_start (s : State) (now : DateTime)
    (hm : s.manualMode = false) (hp : s.pumpStatus = false)
    (hf : s.waterLevelPercent ≤ s.pumpOnLevel)
    (hlim : s.waterLevelPercent < stopLimit now s) :
    (controlPump s now).1.pumpStatus = true ∧
    (controlPump s now).2 = [Event.relay true, Event.beep 1 500] := by
  have hm' : ¬s.manualMode = true := by simp [hm]
  unfold controlPump
  rw [if_neg hm']
  obtain ⟨d1, d2, d3, d4, d5, d6, d7, d8, d9, d10, d11, d12⟩ :=
    dayRollover_fields now s
  have ha_pump : (dayRollover now s).pumpStatus = false := d9.trans hp
  obtain ⟨p1, p2, p3, p4, p5, p6, p7, p8, p9⟩ :=
    schedPhase_pres now (dayRollover now s, [])
  rcases schedPhase_cases now (dayRollover now s, []) ha_pump with
    ⟨hsp, hse⟩ | ⟨hsp, hse⟩
  · have hfon : (schedPhase now (dayRollover now s, [])).1.waterLevelPercent ≤
        (schedPhase now (dayRollover now s, [])).1.pumpOnLevel := by
      rw [p2, p3, d2, d3]; exact hf
    obtain ⟨hstp, hste⟩ := startPhase_lowStart _ hsp hfon
    obtain ⟨q1, q2, q3, q4, q5, q6, q7, q8, q9, q10, q11⟩ :=
      startPhase_pres (schedPhase now (dayRollover now s, []))
    have hq : (startPhase (schedPhase now (dayRollover now s, []))).1.waterLevelPercent <
        stopLimit now (startPhase (schedPhase now (dayRollover now s, []))).1 := by
      rw [q2, p2, d2, stopLimit_congr now _ s (q5.trans (p5.trans d5)) (q4.trans (p4.trans d4))]
      exact hlim
    rw [stopPhase_id_of_lt now _ hq]
    refine ⟨hstp, ?_⟩
    rw [hste, hse]
    simp
  · obtain ⟨q1, q2, q3, q4, q5, q6, q7, q8, q9, q10, q11⟩ :=
      startPhase_pres (schedPhase now (dayRollover now s, []))
    rw [startPhase_id_of_pumpTrue _ hsp]
    have hq : (schedPhase now (dayRollover now s, [])).1.waterLevelPercent <
        stopLimit now (schedPhase now (dayRollover now s, [])).1 := by
      rw [p2, d2, stopLimit_congr now _ s (p5.trans d5) (p4.trans d4)]
      exact hlim
    rw [stopPhase_id_of_lt now _ hq]
    refine ⟨hsp, ?_⟩
    rw [hse]
    simp

/-- C2 counterexample: at hour 7 (a pre-schedule hour) with
`fillPercent = 15 ≤ pumpOnLevel = 20` and the pump off, the call turns the
pump on and immediately off again (`fillPercent ≥ preScheduleLimit = 10`),
so the post-state has `pumpStatus = false`, contradicting the claim that
every such call ends with `pumpStatus = true`. -/
theorem normal_low_level_start_counterexample :
    preThrottleState.manualMode = false ∧
    preThrottleState.pumpStatus = false ∧
    preThrottleState.pumpOnLevel < preThrottleState.pumpOffLevel ∧
    preThrottleState.pumpOnLevel ≤ preThrottleState.recoveryTrigger ∧
    preThrottleState.waterLevelPercent ≤ preThrottleState.pumpOnLevel ∧
    (controlPump preThrottleState ⟨1, 7, 0⟩).1.pumpStatus = false := by
  decide

/-- C2 witness: the amended theorem applied at level 10 ≤ 20 at 10:00,
where the stop threshold is `pumpOffLevel = 90`. -/
theorem normal_low_level_start_witness :
    (lowLevelState.manualMode = false ∧ lowLevelState.pumpStatus = false ∧
      lowLevelState.waterLevelPercent ≤ lowLevelState.pumpOnLevel ∧
      lowLevelState.waterLevelPercent < stopLimit ⟨1, 10, 0⟩ lowLevelState) ∧
    (controlPump lowLevelState ⟨1, 10, 0⟩).1.pumpStatus = true ∧
    (controlPump lowLevelState ⟨1, 10, 0⟩).2 =
      [Event.relay true, Event.beep 1 500] :=
  ⟨⟨rfl, rfl, by decide, by decide⟩,
    normal_low_level_start lowLevelState ⟨1, 10, 0⟩ rfl rfl (by decide) (by decide)⟩

/-- C3: with `manualMode = false` and the pump running, `controlPump` uses
the effective stop threshold `preScheduleLimit` exactly at hours 7, 13 and
19 (one hour before the slots 8, 14, 20) and `pumpOffLevel` at every other
hour, and it turns the pump off with `beep(2,200)` if and only if
`fillPercent` is at or above that threshold (otherwise the pump stays on
and no event is emitted). -/
theorem stop_logic_threshold (s : State) (now : DateTime)
    (hm : s.manualMode = false) (hp : s.pumpStatus = true) :
    (((controlPump s now).1.pumpStatus = false ∧
        (controlPump s now).2 = [Event.relay false, Event.beep 2 200]) ↔
      (if now.hour = 7 ∨ now.hour = 13 ∨ now.hour = 19 then s.preScheduleLimit
        else s.pumpOffLevel) ≤ s.waterLevelPercent) ∧
    (((controlPump s now).1.pumpStatus = true ∧ (controlPump s now).2 = []) ↔
      s.waterLevelPercent <
        (if now.hour = 7 ∨ now.hour = 13 ∨ now.hour = 19 then s.preScheduleLimit
          else s.pumpOffLevel)) := by
  have hm' : ¬s.manualMode = true := by simp [hm]
  have hlim : (if now.hour = 7 ∨ now.hour = 13 ∨ now.hour = 19
      then s.preScheduleLimit else s.pumpOffLevel) = stopLimit now s := rfl
  rw [hlim]
  unfold controlPump
  rw [if_neg hm']
  obtain ⟨d1, d2, d3, d4, d5, d6, d7, d8, d9, d10, d11, d12⟩ :=
    dayRollover_fields now s
  have ha_pump : (dayRollover now s).pumpStatus = true := d9.trans hp
  obtain ⟨p1, p2, p3, p4, p5, p6, p7, p8, p9⟩ :=
    schedPhase_pres now (dayRollover now s, [])
  obtain ⟨hsp, hse⟩ := schedPhase_pumpTrue now (dayRollover now s, []) ha_pump
  rw [startPhase_id_of_pumpTrue _ hsp]
  have hfill : (schedPhase now (dayRollover now s, [])).1.waterLevelPercent =
      s.waterLevelPercent := p2.trans d2
  have hlim2 : stopLimit now (schedPhase now (dayRollover now s, [])).1 =
      stopLimit now s :=
    stopLimit_congr now _ s (p5.trans d5) (p4.trans d4)
  by_cases hge : stopLimit now s ≤ s.waterLevelPercent
  · obtain ⟨hq1, hq2⟩ := stopPhase_stop now (schedPhase now (dayRollover now s, []))
      hsp (by rw [hfill, hlim2]; exact hge)
    rw [hq1, hq2, hse]
    constructor
    · simpa using hge
    · constructor
      · rintro ⟨h, -⟩
        exact absurd h (by simp)
      · intro h
        omega
  · rw [stopPhase_id_of_lt now _ (by rw [hfill, hlim2]; omega)]
    rw [hse]
    constructor
    · constructor
      · rintro ⟨h, -⟩
        rw [hsp] at h
        exact absurd h (by simp)
      · intro h
        omega
    · simpa [hsp] using (by omega : s.waterLevelPercent < stopLimit now s)

/-- C3 witness: at hour 7 the effective threshold is
`preScheduleLimit = 65 ≤ 70`, so the pump stops with `beep(2,200)`. -/
theorem stop_logic_threshold_witness :
    (runningState.manualMode = false ∧ runningState.pumpStatus = true) ∧
    ((controlPump runningState ⟨1, 7, 0⟩).1.pumpStatus = false ∧
      (controlPump runningState ⟨1, 7, 0⟩).2 =
        [Event.relay false, Event.beep 2 200]) :=
  ⟨⟨rfl, rfl⟩,
    ((stop_logic_threshold runningState ⟨1, 7, 0⟩ rfl rfl).1).mpr (by decide)⟩

/-- C4 (amended): the recovery round trip.  (a) With schedules enabled,
`manualMode = false`, the hour-8 slot unresolved (`lastScheduleHour < 8`)
and `now.hour ≥ 9`, a call sets `recoveryPending`, and the flag is still
set at the end of the call provided `fillPercent < 90` (otherwise the same
call's stop logic may clear it again).  (b) A subsequent call with the
pump off, `recoveryPending` set and `pumpOnLevel < fillPercent ≤
recoveryTrigger` performs a recovery start (`pumpStatus` becomes true,
`beep(3,200)`), provided the call is not in a slot hour (8/14/20), where
an in-window schedule start would fire first, and `fillPercent` is below
the effective stop threshold.  (c) A later call that observes
`fillPercent ≥ 90` with the pump running and the level at or above the
effective stop threshold clears `recoveryPending`. -/
theorem recovery_round_trip :
    (∀ (s : State) (now : DateTime),
      s.manualMode = false → s.schedulesEnabled = true →
      s.lastScheduleHour < 8 → 9 ≤ now.hour → s.waterLevelPercent < 90 →
      (controlPump s now).1.recoveryPending = true) ∧
    (∀ (s : State) (now : DateTime),
      s.manualMode = false → s.pumpStatus = false → s.recoveryPending = true →
      s.pumpOnLevel < s.waterLevelPercent →
      s.waterLevelPercent ≤ s.recoveryTrigger →
      ¬(now.hour = 8 ∨ now.hour = 14 ∨ now.hour = 20) →
      s.waterLevelPercent < stopLimit now s →
      (controlPump s now).1.pumpStatus = true ∧
        (controlPump s now).2 = [Event.relay true, Event.beep 3 200]) ∧
    (∀ (s : State) (now : DateTime),
      s.manualMode = false → s.pumpStatus = true →
      90 ≤ s.waterLevelPercent → stopLimit now s ≤ s.waterLevelPercent →
      (controlPump s now).1.recoveryPending = false) := by
  refine ⟨?_, ?_, ?_⟩
  · intro s now hm hs hlsh hh hf
    have hm' : ¬s.manualMode = true := by simp [hm]
    apply (controlPump_pending_iff s now hm').mpr
    constructor
    · refine Or.inr ⟨hs, Or.inl ⟨by omega, ?_⟩⟩
      unfold rolledLsh
      split_ifs <;> omega
    · rintro ⟨-, -, h90⟩
      omega
  · intro s now hm hp hpend hon hrec hnw hlim
    have hm' : ¬s.manualMode = true := by simp [hm]
    unfold controlPump
    rw [if_neg hm']
    obtain ⟨d1, d2, d3, d4, d5, d6, d7, d8, d9, d10, d11, d12⟩ :=
      dayRollover_fields now s
    have ha_pump : (dayRollover now s).pumpStatus = false := d9.trans hp
    obtain ⟨p1, p2, p3, p4, p5, p6, p7, p8, p9⟩ :=
      schedPhase_pres now (dayRollover now s, [])
    rcases schedPhase_cases now (dayRollover now s, []) ha_pump with
      ⟨hsp, hse⟩ | ⟨hsp, hse⟩
    · have hnoton : ¬(schedPhase now (dayRollover now s, [])).1.waterLevelPercent ≤
          (schedPhase now (dayRollover now s, [])).1.pumpOnLevel := by
        rw [p2, p3, d2, d3]; omega
      have hpend2 : (schedPhase now (dayRollover now s, [])).1.recoveryPending = true := by
        apply (schedPhase_pending_iff now (dayRollover now s, [])).mpr
        exact Or.inl (d10.trans hpend)
      have hrec2 : (schedPhase now (dayRollover now s, [])).1.waterLevelPercent ≤
          (schedPhase now (dayRollover now s, [])).1.recoveryTrigger := by
        rw [p2, p6, d2, d6]; exact hrec
      obtain ⟨hstp, hste⟩ := startPhase_recoveryStart _ hsp hnoton hpend2 hrec2
      obtain ⟨q1, q2, q3, q4, q5, q6, q7, q8, q9, q10, q11⟩ :=
        startPhase_pres (schedPhase now (dayRollover now s, []))
      have hq : (startPhase (schedPhase now (dayRollover now s, []))).1.waterLevelPercent <
          stopLimit now (startPhase (schedPhase now (dayRollover now s, []))).1 := by
        rw [q2, p2, d2,
          stopLimit_congr now _ s (q5.trans (p5.trans d5)) (q4.trans (p4.trans d4))]
        exact hlim
      rw [stopPhase_id_of_lt now _ hq]
      refine ⟨hstp, ?_⟩
      rw [hste, hse]
      simp
    · exfalso
      rcases (schedPhase_pump_iff now (dayRollover now s, [])).mp hsp with
        hfalse | ⟨-, hwin, -, -⟩
      · rw [ha_pump] at hfalse
        exact absurd hfalse (by simp)
      · exact hnw hwin.1
  · intro s now hm hp hf hl
    exact stop_clears_pending s now hm hp hf hl

/-- C4 counterexample: all hypotheses of the claim's first leg hold
(`schedulesEnabled`, automatic mode, `lastScheduleHour < 8`,
`now.hour = 9 ≥ 9`), yet the call ends with `recoveryPending = false`,
refuting "any evaluate at now.hour ≥ 9 sets recoveryPending=true". -/
theorem recovery_round_trip_counterexample :
    clearedRecoveryState.manualMode = false ∧
    clearedRecoveryState.schedulesEnabled = true ∧
    clearedRecoveryState.lastScheduleHour < 8 ∧
    (9 : Int) ≤ (⟨5, 9, 0⟩ : DateTime).hour ∧
    (controlPump clearedRecoveryState ⟨5, 9, 0⟩).1.recoveryPending = false := by
  decide

/-- C4 witness: the three legs of the amended theorem applied along a
concrete trace at hour 9. -/
theorem recovery_round_trip_witness :
    (missedSlotState.lastScheduleHour < 8 ∧ missedSlotState.waterLevelPercent < 90 ∧
      (controlPump missedSlotState ⟨5, 9, 0⟩).1.recoveryPending = true) ∧
    (pendingState.pumpOnLevel < pendingState.waterLevelPercent ∧
      (controlPump pendingState ⟨5, 9, 0⟩).1.pumpStatus = true ∧
      (controlPump pendingState ⟨5, 9, 0⟩).2 =
        [Event.relay true, Event.beep 3 200]) ∧
    (90 ≤ toppedUpState.waterLevelPercent ∧
      (controlPump toppedUpState ⟨5, 9, 0⟩).1.recoveryPending = false) :=
  ⟨⟨by decide, by decide,
      recovery_round_trip.1 missedSlotState ⟨5, 9, 0⟩ rfl rfl (by decide)
        (by decide) (by decide)⟩,
    ⟨by decide,
      recovery_round_trip.2.1 pendingState ⟨5, 9, 0⟩ rfl rfl rfl (by decide)
        (by decide) (by decide) (by decide)⟩,
    ⟨by decide,
      recovery_round_trip.2.2 toppedUpState ⟨5, 9, 0⟩ rfl rfl (by decide)
        (by decide)⟩⟩

/-- C5 (amended): `recoveryPending` is cleared by a call with
`manualMode = false` and `fillPercent ≥ 90` when the pump is running and
the level is also at or above the effective stop threshold — the clearing
happens only on the stop path, not regardless of pump state. -/
theorem recovery_flag_clearing (s : State) (now : DateTime)
    (hm : s.manualMode = false) (hp : s.pumpStatus = true)
    (hf : 90 ≤ s.waterLevelPercent)
    (hl : (if now.hour = 7 ∨ now.hour = 13 ∨ now.hour = 19
        then s.preScheduleLimit else s.pumpOffLevel) ≤ s.waterLevelPercent) :
    (controlPump s now).1.recoveryPending = false :=
  stop_clears_pending s now hm hp hf hl

/-- C5 counterexample: `manualMode = false` and `fillPercent = 95 ≥ 90`,
but the pump is off, no start fires (95 > recoveryTrigger = 70), the stop
logic never runs, and `recoveryPending` stays `true` — the claim required
it to be cleared "regardless of whether the pump was on or off". -/
theorem recovery_flag_clearing_counterexample :
    staleRecoveryState.manualMode = false ∧
    (90 : Int) ≤ staleRecoveryState.waterLevelPercent ∧
    staleRecoveryState.recoveryPending = true ∧
    (controlPump staleRecoveryState ⟨1, 10, 0⟩).1.recoveryPending = true := by
  decide

/-- C5 witness: the amended theorem applied with the pump running at
level 95 at 10:00 (threshold `pumpOffLevel = 90 ≤ 95`). -/
theorem recovery_flag_clearing_witness :
    (fullTankRunningState.manualMode = false ∧
      fullTankRunningState.pumpStatus = true ∧
      (90 : Int) ≤ fullTankRunningState.waterLevelPercent) ∧
    (controlPump fullTankRunningState ⟨1, 10, 0⟩).1.recoveryPending = false :=
  ⟨⟨rfl, rfl, by decide⟩,
    recovery_flag_clearing fullTankRunningState ⟨1, 10, 0⟩ rfl rfl (by decide)
      (by decide)⟩

/-- C6 (amended): the operations that do not write the configuration —
`controlPump` and the `PUMP_ON`/`PUMP_OFF`/`AUTO` commands — preserve the
configuration invariants `pumpOnLevel < pumpOffLevel` and
`pumpOnLevel ≤ recoveryTrigger`.  A `SETTINGS` command (and the startup
load) installs the supplied values without any validation and therefore
does not preserve them in general (see the counterexample). -/
theorem config_invariants_preserved :
    (∀ (s : State) (now : DateTime),
      configInvariant s → configInvariant (controlPump s now).1) ∧
    (∀ (s : State) (store : Store), configInvariant s →
      configInvariant (applyCommand s store Command.pumpOn).1 ∧
      configInvariant (applyCommand s store Command.pumpOff).1 ∧
      configInvariant (applyCommand s store Command.auto).1) := by
  constructor
  · intro s now h
    obtain ⟨c1, c2, c3, c4, c5, c6, c7, c8⟩ := controlPump_pres s now
    unfold configInvariant at h ⊢
    rw [c3, c4, c6]
    exact h
  · intro s store h
    exact ⟨h, h, h⟩

/-- C6 counterexample: from the default configuration (which satisfies
both invariants), `SETTINGS {min: 95}` yields `pumpOnLevel = 95` while
`pumpOffLevel` stays 90, breaking `pumpOnLevel < pumpOffLevel`: the code
performs no validation, so the claim that every Settings payload
preserves the invariants is false. -/
theorem config_invariants_preserved_counterexample :
    configInvariant bootGlobals ∧
    ¬configInvariant
      (applyCommand bootGlobals emptyStore
        (Command.settings ⟨some 95, none, none, none, none⟩)).1 := by
  decide

/-- C6 witness: the amended theorem applied to the default state. -/
theorem config_invariants_preserved_witness :
    configInvariant bootGlobals ∧
    configInvariant (controlPump bootGlobals ⟨1, 9, 0⟩).1 ∧
    configInvariant (applyCommand bootGlobals emptyStore Command.pumpOn).1 ∧
    configInvariant (applyCommand bootGlobals emptyStore Command.pumpOff).1 ∧
    configInvariant (applyCommand bootGlobals emptyStore Command.auto).1 :=
  ⟨by decide,
    config_invariants_preserved.1 bootGlobals ⟨1, 9, 0⟩ (by decide),
    (config_invariants_preserved.2 bootGlobals emptyStore (by decide)).1,
    (config_invariants_preserved.2 bootGlobals emptyStore (by decide)).2.1,
    (config_invariants_preserved.2 bootGlobals emptyStore (by decide)).2.2⟩

/-- C7: `evaluate` is idempotent in its decision — calling `controlPump`
twice in succession with identical inputs (the fill level sits in the
state and is not modified by `controlPump`, and the time argument is the
same) and no intervening command leaves `pumpStatus` at the value the
first call produced: no oscillation between repeated ticks. -/
theorem evaluate_idempotent (s : State) (now : DateTime) :
    (controlPump (controlPump s now).1 now).1.pumpStatus =
      (controlPump s now).1.pumpStatus := by
  by_cases hm : s.manualMode = true
  · simp [controlPump_manual s now hm]
  · exact controlPump_idem_aux s now hm

/-- C8: `readFill` correctness — a non-positive (invalid) raw distance
leaves the stored level unchanged; a positive one is mapped by the
spec's `linearMap` from `[tankHeightCm+sensorGapCm, sensorGapCm]` to
`[0,100]` and clamped (the code's `map`+`constrain` coincide with the
spec formula `readFill_spec`); in particular `tankHeightCm = 100`,
`sensorGapCm = 5`, distance 55 gives `fillPercent = 50`. -/
theorem readFill_correct (s : State) (d : Int) :
    (d ≤ 0 → readSensors s d = s) ∧
    (0 < d → (readSensors s d).waterLevelPercent = readFill_spec s d) ∧
    (s.tankHeightCm = 100 → d = 55 →
      (readSensors s d).waterLevelPercent = 50) := by
  refine ⟨fun h => readSensors_id_of_nonpos s d h, fun h => ?_, fun h1 h2 => ?_⟩
  · unfold readSensors readFill_spec arduinoMap specLinearMap
    rw [if_pos h, if_neg (by omega)]
  · subst h2
    unfold readSensors
    rw [if_pos (by norm_num)]
    show constrain (arduinoMap 55 (s.tankHeightCm + SENSOR_GAP_CM)
      SENSOR_GAP_CM 0 100) 0 100 = 50
    rw [h1]
    decide

/-- C8 witness: the theorem applied at the boot state for an invalid
reading (-1) and for the spec's worked example (distance 55 with the
default tank height 100). -/
theorem readFill_correct_witness :
    ((-1 : Int) ≤ 0 ∧ readSensors bootGlobals (-1) = bootGlobals) ∧
    (bootGlobals.tankHeightCm = 100 ∧
      (readSensors bootGlobals 55).waterLevelPercent = 50) :=
  ⟨⟨by decide, (readFill_correct bootGlobals (-1)).1 (by decide)⟩,
    ⟨rfl, (readFill_correct bootGlobals 55).2.2 rfl rfl⟩⟩

/-- C9 (amended): a `SETTINGS` command updates exactly the configuration
fields present in the payload, leaves every unspecified configuration
field and all runtime state (`pumpStatus`, `manualMode`,
`recoveryPending`, schedule trackers, the level) at their prior values,
and synchronously persists the configuration with `saveSettings` and a
`beep(3,100)`; `saveSettings` writes every configuration key except
`h_cm` (`tankHeightCm`), which the sketch persists separately from the
local web endpoint. -/
theorem settings_frame_and_persistence (s : State) (store : Store)
    (m : SettingsMsg) :
    (applyCommand s store (Command.settings m)).1.pumpOnLevel =
        m.min?.getD s.pumpOnLevel ∧
    (applyCommand s store (Command.settings m)).1.pumpOffLevel =
        m.max?.getD s.pumpOffLevel ∧
    (applyCommand s store (Command.settings m)).1.schedulesEnabled =
        m.sched?.getD s.schedulesEnabled ∧
    (applyCommand s store (Command.settings m)).1.preScheduleLimit =
        m.pre?.getD s.preScheduleLimit ∧
    (applyCommand s store (Command.settings m)).1.recoveryTrigger =
        m.rec?.getD s.recoveryTrigger ∧
    (applyCommand s store (Command.settings m)).1.tankHeightCm = s.tankHeightCm ∧
    (applyCommand s store (Command.settings m)).1.waterLevelPercent =
        s.waterLevelPercent ∧
    (applyCommand s store (Command.settings m)).1.pumpStatus = s.pumpStatus ∧
    (applyCommand s store (Command.settings m)).1.manualMode = s.manualMode ∧
    (applyCommand s store (Command.settings m)).1.recoveryPending =
        s.recoveryPending ∧
    (applyCommand s store (Command.settings m)).1.lastScheduleDay =
        s.lastScheduleDay ∧
    (applyCommand s store (Command.settings m)).1.lastScheduleHour =
        s.lastScheduleHour ∧
    (applyCommand s store (Command.settings m)).2.1 =
        saveSettings (applyCommand s store (Command.settings m)).1 store ∧
    (applyCommand s store (Command.settings m)).2.1.onKey =
        some (m.min?.getD s.pumpOnLevel) ∧
    (applyCommand s store (Command.settings m)).2.1.offKey =
        some (m.max?.getD s.pumpOffLevel) ∧
    (applyCommand s store (Command.settings m)).2.1.preKey =
        some (m.pre?.getD s.preScheduleLimit) ∧
    (applyCommand s store (Command.settings m)).2.1.recKey =
        some (m.rec?.getD s.recoveryTrigger) ∧
    (applyCommand s store (Command.settings m)).2.1.schedKey =
        some (m.sched?.getD s.schedulesEnabled) ∧
    (applyCommand s store (Command.settings m)).2.1.hcmKey = store.hcmKey ∧
    (applyCommand s store (Command.settings m)).2.2 = [Event.beep 3 100] :=
  ⟨rfl, rfl, rfl, rfl, rfl, rfl, rfl, rfl, rfl, rfl, rfl, rfl, rfl, rfl,
    rfl, rfl, rfl, rfl, rfl, rfl⟩

/-- C9 counterexample: after a `SETTINGS` command the persisted `h_cm`
key still holds 100 while the configuration's `tankHeightCm` is 77 —
`save` does not write every field of the configuration, refuting the
claim as stated. -/
theorem settings_frame_counterexample :
    shortTankState.tankHeightCm = 77 ∧
    (applyCommand shortTankState storedHeightStore
        (Command.settings ⟨none, none, none, none, none⟩)).1.tankHeightCm = 77 ∧
    (applyCommand shortTankState storedHeightStore
        (Command.settings ⟨none, none, none, none, none⟩)).2.1.hcmKey =
      some 100 ∧
    (applyCommand shortTankState storedHeightStore
        (Command.settings ⟨none, none, none, none, none⟩)).2.1.hcmKey ≠
      some (applyCommand shortTankState storedHeightStore
        (Command.settings ⟨none, none, none, none, none⟩)).1.tankHeightCm := by
  decide

theorem foldl_readSensors_nonpos (ds : List Int) :
    ∀ s : State, (∀ d ∈ ds, d ≤ 0) → ds.foldl readSensors s = s := by
  induction ds with
  | nil => intro s _; rfl
  | cons d rest ih =>
      intro s h
      simp only [List.foldl_cons]
      rw [readSensors_id_of_nonpos s d (h d (by simp))]
      exact ih s fun x hx => h x (by simp [hx])

/-- C10: at process start the stored fill percentage is 0 and invalid
(non-positive) distance readings never update it; hence, with the loaded
configuration in its documented ranges (`0 ≤ pumpOnLevel`,
`0 < pumpOffLevel`, `0 < preScheduleLimit`), the first `controlPump` in
automatic mode sees `fillPercent = 0 ≤ pumpOnLevel` and switches the
pump on — a disconnected or permanently failing sensor at boot makes the
pump run. -/
theorem boot_empty_tank_pump_on (store : Store) (ds : List Int)
    (now : DateTime) (hds : ∀ d ∈ ds, d ≤ 0)
    (hon : 0 ≤ store.onKey.getD 20)
    (hoff : 0 < store.offKey.getD 90)
    (hpre : 0 < store.preKey.getD 65) :
    (ds.foldl readSensors (initialState store)).waterLevelPercent = 0 ∧
    (controlPump (ds.foldl readSensors (initialState store)) now).1.pumpStatus =
      true := by
  rw [foldl_readSensors_nonpos ds (initialState store) hds]
  refine ⟨rfl, ?_⟩
  have hm' : ¬(initialState store).manualMode = true := fun h => by cases h
  apply (controlPump_pump_iff _ now hm').mpr
  constructor
  · refine Or.inr (Or.inl ?_)
    show (0 : Int) ≤ store.onKey.getD 20
    exact hon
  · show (0 : Int) < stopLimit now (initialState store)
    unfold stopLimit
    split_ifs
    · exact hpre
    · exact hoff

/-- C10 witness: the theorem applied to a first boot (empty store, so all
defaults) and two invalid readings. -/
theorem boot_empty_tank_pump_on_witness :
    ((∀ d ∈ [(0 : Int), -3], d ≤ 0) ∧ (0 : Int) ≤ emptyStore.onKey.getD 20) ∧
    ([(0 : Int), -3].foldl readSensors (initialState emptyStore)).waterLevelPercent =
      0 ∧
    (controlPump ([(0 : Int), -3].foldl readSensors (initialState emptyStore))
        ⟨1, 10, 0⟩).1.pumpStatus = true :=
  ⟨⟨by decide, by decide⟩,
    boot_empty_tank_pump_on emptyStore [0, -3] ⟨1, 10, 0⟩ (by decide)
      (by decide) (by decide) (by decide)⟩

end Farmwire

